import Mathlib

/-!
Verification development for the qualys-cloudrun repository
(`cloud_function/main.py`, `cloud_function/image_parser.py`,
`cloud_function/qualys_scanner_cloudrun.py`, `cloud_function/storage_handler.py`).

The Python sources are shallowly embedded below.  Strings are modelled as
Lean `String`/`List Char`; Python's `str.isalnum`, `str.lower`, `str.upper`
are modelled by the ASCII functions `Char.isAlphanum`, `Char.toLower`,
`Char.toUpper` (the repository only ever handles ASCII registry, repository,
tag and severity strings).  Fallible Python code (statements that can raise)
is embedded in `Except String`; external services (the job executor, the
metadata store, the JSON decoder of the standard library) are modelled as
explicit parameters or oracle records.
-/

/-! ## Generic string helpers (Python string primitives on `List Char`) -/

/-- Does `needle` match at the head of `hay`? -/
def isSubAt : List Char → List Char → Bool
  | [], _ => true
  | _ :: _, [] => false
  | n :: ns, h :: hs => n == h && isSubAt ns hs

/-- Python's substring test `needle in hay` over character lists. -/
def containsSub (hay needle : List Char) : Bool :=
  match hay with
  | [] => needle.isEmpty
  | _ :: t => isSubAt needle hay || containsSub t needle

/-- Python `str.lower` (ASCII model). -/
def pyLower (s : String) : String := String.mk (s.data.map Char.toLower)

/-- Python `str.upper` (ASCII model). -/
def pyUpper (s : String) : String := String.mk (s.data.map Char.toUpper)

/-- Split `cs` at the FIRST occurrence of `sep`, returning the text before the
occurrence and the text after it; `none` when `sep` does not occur.
This is the building block for Python's `str.split(sep)`. -/
def splitOnceAux (sep : List Char) : List Char → Option (List Char × List Char)
  | [] => none
  | c :: rest =>
    if isSubAt sep (c :: rest) then some ([], (c :: rest).drop sep.length)
    else
      match splitOnceAux sep rest with
      | some (a, b) => some (c :: a, b)
      | none => none

/-- Python `str.split(c)` for a single-character separator. -/
def splitChar (c : Char) : List Char → List (List Char)
  | [] => [[]]
  | x :: rest =>
    if x == c then [] :: splitChar c rest
    else
      match splitChar c rest with
      | [] => [[x]]
      | h :: t => (x :: h) :: t

/-- Python `s.rsplit(c, 1)` when `c` occurs in `s`: the text before the LAST
occurrence of `c` and the text after it. -/
def breakLast (c : Char) (cs : List Char) : List Char × List Char :=
  let rev := cs.reverse
  let afterRev := rev.takeWhile (fun x => x ≠ c)
  let beforeRev := rev.drop (afterRev.length + 1)
  (beforeRev.reverse, afterRev.reverse)

/-! ## `_normalize_severity` (qualys_scanner_cloudrun.py, lines 425-451) -/

/-- The `severity_map` dictionary of `_normalize_severity`. -/
def severity_map : List (String × String) :=
  [("5", "CRITICAL"), ("4", "HIGH"), ("3", "MEDIUM"), ("2", "LOW"), ("1", "INFORMATIONAL")]

/-- `QScannerCloudRun._normalize_severity`: uppercase the (stringified) input,
map numeric codes through `severity_map`, otherwise match severity keywords
as substrings, otherwise default to MEDIUM. -/
def normalize_severity (sev : String) : String :=
  let severity := pyUpper sev
  match severity_map.lookup severity with
  | some v => v
  | none =>
    if containsSub severity.data "CRIT".data then "CRITICAL"
    else if containsSub severity.data "HIGH".data then "HIGH"
    else if containsSub severity.data "MED".data then "MEDIUM"
    else if containsSub severity.data "LOW".data then "LOW"
    else if containsSub severity.data "INFO".data then "INFORMATIONAL"
    else "MEDIUM"

/-- True when neither the numeric map nor any severity keyword recognizes the
input; such inputs fall through to the MEDIUM default. -/
def severityUnrecognized (sev : String) : Bool :=
  (severity_map.lookup (pyUpper sev)).isNone
    && !containsSub (pyUpper sev).data "CRIT".data
    && !containsSub (pyUpper sev).data "HIGH".data
    && !containsSub (pyUpper sev).data "MED".data
    && !containsSub (pyUpper sev).data "LOW".data
    && !containsSub (pyUpper sev).data "INFO".data

/-! ## `_generate_job_name` (qualys_scanner_cloudrun.py, lines 284-308)

The Python code reads the wall clock (`datetime.utcnow().strftime('%Y%m%d%H%M%S')`,
a 14-digit string); the timestamp is passed in as a parameter here.
The `registry` argument is accepted and ignored, exactly as in the source. -/

/-- Python `repository.replace('/', '-')`. -/
def replaceSlashDash (s : String) : String :=
  String.mk (s.data.map (fun c => if c == '/' then '-' else c))

set_option linter.unusedVariables false in
/-- `QScannerCloudRun._generate_job_name`: lowercase
`qscanner-<repository with / replaced by -><-tag>`, replace every character
that is not alphanumeric and not a hyphen by a hyphen, truncate to 50
characters, and append `-<timestamp>`. -/
def generate_job_name (registry repository tag timestamp : String) : String :=
  let base0 := pyLower ("qscanner-" ++ replaceSlashDash repository ++ "-" ++ tag)
  let base1 := String.mk (base0.data.map (fun c => if c.isAlphanum || c == '-' then c else '-'))
  let base2 := if base1.length > 50 then String.mk (base1.data.take 50) else base1
  base2 ++ "-" ++ timestamp

/-! ## JSON values (the decoded output of `json.loads`) -/

/-- Decoded JSON / Python values manipulated by the scanner's parsers.
Numbers are modelled as integers (the severity codes and counts that the
repository reads are integers). -/
inductive Json where
  | null : Json
  | bool : Bool → Json
  | num : Int → Json
  | str : String → Json
  | arr : List Json → Json
  | obj : List (String × Json) → Json
deriving Repr

/-- Python `dict.get(key, dflt)` on a decoded JSON object (field lists have
unique keys, as produced by `json.loads`). -/
def pyGet (fields : List (String × Json)) (key : String) (dflt : Json) : Json :=
  match fields.lookup key with
  | some v => v
  | none => dflt

/-- Python truthiness of a decoded JSON value. -/
def truthy : Json → Bool
  | .null => false
  | .bool b => b
  | .num n => n != 0
  | .str s => !s.isEmpty
  | .arr xs => !xs.isEmpty
  | .obj fs => !fs.isEmpty

/-- Python `a or b`. -/
def pyOr (a b : Json) : Json := if truthy a then a else b

/-- Python `str(v)` for decoded JSON scalars (exact for the `None`/bool/number/
string values that severity fields actually hold; the `repr` text of nested
containers is abbreviated). -/
def jsonPyStr : Json → String
  | .null => "None"
  | .bool b => if b then "True" else "False"
  | .num n => toString n
  | .str s => s
  | .arr _ => "<list>"
  | .obj _ => "<dict>"

/-- Python `key in v` for a decoded JSON value: key lookup on a dict,
membership on a list, substring test on a string, `TypeError` otherwise. -/
def jsonContains (j : Json) (key : String) : Except String Bool :=
  match j with
  | .obj fs => .ok (fs.any (fun p => p.1 == key))
  | .arr xs => .ok (xs.any (fun x => match x with | .str s => s == key | _ => false))
  | .str s => .ok (containsSub s.data key.data)
  | _ => .error "TypeError: argument is not iterable"

/-- Python `v[key]` for a string key: dict lookup (`KeyError` when absent),
`TypeError` on any other value. -/
def jsonIndex (j : Json) (key : String) : Except String Json :=
  match j with
  | .obj fs =>
    match fs.lookup key with
    | some v => .ok v
    | none => .error "KeyError"
  | _ => .error "TypeError: value is not subscriptable"

/-- Python `for x in v`: the elements of a list, the characters of a string
(as one-character strings), the keys of a dict; `TypeError` otherwise. -/
def jsonIter (j : Json) : Except String (List Json) :=
  match j with
  | .arr xs => .ok xs
  | .str s => .ok (s.data.map (fun c => Json.str (String.mk [c])))
  | .obj fs => .ok (fs.map (fun p => Json.str p.1))
  | _ => .error "TypeError: value is not iterable"

/-! ## `_parse_qscanner_output` (qualys_scanner_cloudrun.py, lines 336-350)

`json.loads` belongs to the standard library, so the decoder is a parameter:
any function from raw text to either a decoded value or a decode-error
message. -/

/-- `QScannerCloudRun._parse_qscanner_output`: decode the raw output; on a
decode failure return a PARSE_ERROR object carrying the raw text and the
error message instead of raising. -/
def parse_qscanner_output (decode : String → Except String Json) (output : String) : Json :=
  match decode output with
  | .ok data => data
  | .error e =>
    Json.obj [("status", Json.str "PARSE_ERROR"),
              ("raw_output", Json.str output),
              ("error", Json.str e)]

/-! ## `_parse_vulnerabilities` (qualys_scanner_cloudrun.py, lines 352-390) -/

/-- One entry of the `details` list built by `_parse_vulnerabilities`. -/
structure VulnDetail where
  qid : Json
  cve : Json
  severity : String
  title : Json
  package : Json
  version : Json
  fixed_version : Json
deriving Repr

/-- The `vuln_summary` dictionary of `_parse_vulnerabilities`. -/
structure VulnSummary where
  CRITICAL : Nat
  HIGH : Nat
  MEDIUM : Nat
  LOW : Nat
  INFORMATIONAL : Nat
  total : Nat
  details : List VulnDetail
deriving Repr

/-- The initial `vuln_summary` value (all counters zero, no details). -/
def initSummary : VulnSummary := ⟨0, 0, 0, 0, 0, 0, []⟩

/-- The detail record appended for one finding, tolerating the two
alternate field-naming conventions, exactly as in the source. -/
def mkDetail (fields : List (String × Json)) (sev : String) : VulnDetail :=
  { qid := pyOr (pyGet fields "qid" .null) (pyGet fields "id" .null)
    cve := pyOr (pyGet fields "cve" .null) (pyGet fields "cveId" .null)
    severity := sev
    title := pyOr (pyGet fields "title" .null) (pyGet fields "name" .null)
    package :=
      match pyGet fields "package" .null with
      | .obj pf => pyGet pf "name" .null
      | _ => pyGet fields "packageName" .null
    version :=
      match pyGet fields "package" .null with
      | .obj pf => pyGet pf "version" .null
      | _ => pyGet fields "packageVersion" .null
    fixed_version := pyOr (pyGet fields "fixedVersion" .null) (pyGet fields "fix" .null) }

/-- Python `if severity in vuln_summary: vuln_summary[severity] += 1`.
The dictionary's keys are the five buckets plus `total` and `details`;
`vuln_summary['details'] += 1` would raise a `TypeError` (list += int). -/
def bumpSeverity (s : VulnSummary) (sev : String) : Except String VulnSummary :=
  if sev = "CRITICAL" then .ok { s with CRITICAL := s.CRITICAL + 1 }
  else if sev = "HIGH" then .ok { s with HIGH := s.HIGH + 1 }
  else if sev = "MEDIUM" then .ok { s with MEDIUM := s.MEDIUM + 1 }
  else if sev = "LOW" then .ok { s with LOW := s.LOW + 1 }
  else if sev = "INFORMATIONAL" then .ok { s with INFORMATIONAL := s.INFORMATIONAL + 1 }
  else if sev = "total" then .ok { s with total := s.total + 1 }
  else if sev = "details" then .error "TypeError: can only concatenate list to list"
  else .ok s

/-- The loop body of `_parse_vulnerabilities` for one finding: normalize the
severity, increment the matching bucket, increment the total, append one
detail record.  `vuln.get` raises `AttributeError` on a non-dict finding. -/
def processVuln (s : VulnSummary) (vuln : Json) : Except String VulnSummary :=
  match vuln with
  | .obj fields =>
    let sev := normalize_severity (jsonPyStr (pyGet fields "severity" (.str "UNKNOWN")))
    match bumpSeverity s sev with
    | .error e => .error e
    | .ok s1 => .ok { s1 with total := s1.total + 1, details := s1.details ++ [mkDetail fields sev] }
  | _ => .error "AttributeError: value has no attribute get"

/-- Locate the vulnerability list at the top level or nested under
`results`, defaulting to the empty list, mirroring the two membership tests
and subscripts of the source. -/
def extractVulnList (scan_results : Json) : Except String Json :=
  match jsonContains scan_results "vulnerabilities" with
  | .error e => .error e
  | .ok true => jsonIndex scan_results "vulnerabilities"
  | .ok false =>
    match jsonContains scan_results "results" with
    | .error e => .error e
    | .ok false => .ok (Json.arr [])
    | .ok true =>
      match jsonIndex scan_results "results" with
      | .error e => .error e
      | .ok r =>
        match jsonContains r "vulnerabilities" with
        | .error e => .error e
        | .ok true => jsonIndex r "vulnerabilities"
        | .ok false => .ok (Json.arr [])

/-- `QScannerCloudRun._parse_vulnerabilities`: extract the findings list and
fold the per-finding loop body over it. -/
def parse_vulnerabilities (scan_results : Json) : Except String VulnSummary :=
  match extractVulnList scan_results with
  | .error e => .error e
  | .ok vulnsJ =>
    match jsonIter vulnsJ with
    | .error e => .error e
    | .ok vulns => vulns.foldlM processVuln initSummary

/-! ## `ImageParser.parse` (image_parser.py, lines 14-81) -/

/-- The dictionary returned by `ImageParser.parse`. -/
structure ImageInfo where
  registry : String
  repository : String
  tag : String
  digest : Option String
  full_name : String
  original : String
deriving Repr, DecidableEq

/-- The digest-handling step of `ImageParser.parse`:
`if '@sha256:' in image_name: image_name, digest = image_name.split('@sha256:')`.
The two-element unpacking raises `ValueError` when the marker occurs more
than once (the split then yields three or more parts). -/
def splitDigest (s : String) : Except String (String × Option String) :=
  match splitOnceAux "@sha256:".data s.data with
  | none => .ok (s, none)
  | some (a, b) =>
    if containsSub b "@sha256:".data then
      .error "ValueError: too many values to unpack (expected 2)"
    else
      .ok (String.mk a, some ("sha256:" ++ String.mk b))

namespace ImageParser

/-- `ImageParser.parse`: strip an optional `@sha256:` digest, split an
optional `:tag` at the last colon (default `latest`), classify the remaining
path into registry and repository by its slash-separated segment count, and
build the canonical `full_name` (the digest form wins over the tag form). -/
def parse (image_name : String) : Except String ImageInfo :=
  match splitDigest image_name with
  | .error e => .error e
  | .ok (name1, digest) =>
    let p :=
      if name1.data.contains ':' then
        let q := breakLast ':' name1.data
        (String.mk q.1, String.mk q.2)
      else (name1, "latest")
    let name2 := p.1
    let tag := p.2
    let parts := (splitChar '/' name2.data).map String.mk
    let rr :=
      match parts with
      | [single] => ("docker.io", "library/" ++ single)
      | [first, second] =>
        if first.data.contains '.' || first.data.contains ':' then (first, second)
        else ("docker.io", first ++ "/" ++ second)
      | first :: rest => (first, String.intercalate "/" rest)
      | [] => ("docker.io", "library/")
    let registry := rr.1
    let repository := rr.2
    let full_name :=
      match digest with
      | some d => registry ++ "/" ++ repository ++ "@" ++ d
      | none => registry ++ "/" ++ repository ++ ":" ++ tag
    .ok { registry := registry
          repository := repository
          tag := tag
          digest := digest
          full_name := full_name
          original :=
            match digest with
            | some d => name2 ++ "@" ++ d
            | none => name2 }

end ImageParser

/-! ## `StorageHandler._sanitize_name` (storage_handler.py, lines 175-189) -/

/-- The first pass of `_sanitize_name`:
`name.replace('/', '_').replace(':', '_').replace('@', '_')`, per character. -/
def sanitizeSpecial (c : Char) : Char :=
  if c == '/' then '_' else if c == ':' then '_' else if c == '@' then '_' else c

/-- The second pass of `_sanitize_name`:
`c if c.isalnum() or c in '-_.' else '_'`. -/
def sanitizeKeep (c : Char) : Char :=
  if c.isAlphanum || c == '-' || c == '_' || c == '.' then c else '_'

/-- `StorageHandler._sanitize_name`: replace `/`, `:`, `@` by `_`, then
replace every character that is not alphanumeric and not one of `-`, `_`,
`.` by `_`. -/
def sanitize_name (name : String) : String :=
  String.mk ((name.data.map sanitizeSpecial).map sanitizeKeep)

/-! ## `StorageHandler.is_recently_scanned` (storage_handler.py, lines 137-173)

The Firestore metadata collection is modelled as a list of records plus an
optional failure: when `failure` is set, streaming the query raises and the
surrounding `except` returns `False`.  Timestamps are modelled as natural
numbers (seconds); the stored `timestamp_str` fields are ISO-8601 strings of
a fixed format, whose lexicographic order agrees with chronological order,
so the Firestore string range-query is the numeric comparison below. -/

/-- One metadata record of the `scan_metadata` collection, restricted to the
fields the recency query touches. -/
structure MetaRecord where
  sanitized_image_name : String
  timestamp : Nat
deriving Repr, DecidableEq

/-- The metadata store: its records, and an optional error raised when the
query is streamed. -/
structure MetaStore where
  records : List MetaRecord
  failure : Option String
deriving Repr

/-- The Firestore query of `is_recently_scanned`: equality on
`sanitized_image_name`, range condition `timestamp_str >= cutoff`,
`limit(1)`. -/
def runQuery (store : MetaStore) (name : String) (cutoff : Nat) :
    Except String (List MetaRecord) :=
  match store.failure with
  | some e => .error e
  | none =>
    .ok ((store.records.filter
      (fun r => r.sanitized_image_name == name && cutoff ≤ r.timestamp)).take 1)

/-- `StorageHandler.is_recently_scanned`: query for a record of the sanitized
image name no older than `now - hours` (the `hours` argument defaults to the
SCAN_CACHE_HOURS environment variable, itself defaulting to 24); any error
during the check yields `False`. -/
def is_recently_scanned (store : MetaStore) (image : String) (now hours : Nat) : Bool :=
  let cutoff := now - hours * 3600
  match runQuery store (sanitize_name image) cutoff with
  | .error _ => false
  | .ok results => !results.isEmpty

/-! ## `_wait_for_execution_completion` (qualys_scanner_cloudrun.py, lines 194-233)

The executions client is modelled as a stream of poll outcomes indexed by
poll number; wall-clock time advances by `poll_interval` seconds per
iteration (the `time.sleep` at the end of each loop body).  The loop is
given fuel to make it a total function; every theorem below supplies enough
fuel for the timeout bound to fire first. -/

/-- One status check: the `get_execution` call raises a `GoogleAPIError`,
or returns an execution without a completion time, or returns a completed
execution with its succeeded/failed task counts. -/
inductive PollStatus where
  | apiError : PollStatus
  | running : PollStatus
  | completed : Nat → Nat → PollStatus
deriving Repr, DecidableEq

/-- Outcome of the wait loop: `TimeoutError`, a normal return (success, or
completion with failed tasks, which the source also returns from), the
`Exception` for a completion with neither count set, or fuel exhaustion
(the real loop would still be polling). -/
inductive WaitOutcome where
  | timeout : WaitOutcome
  | success : WaitOutcome
  | failedTasks : WaitOutcome
  | unexpected : WaitOutcome
  | stillPolling : WaitOutcome
deriving Repr, DecidableEq

/-- Does a poll status carry a completion marker? -/
def isCompleted : PollStatus → Bool
  | .completed _ _ => true
  | _ => false

/-- `QScannerCloudRun._wait_for_execution_completion`: raise `TimeoutError`
once elapsed time exceeds `scanTimeout`; otherwise check the status once —
an API error is logged and polling continues after a sleep, a running
execution sleeps and polls again, a completed execution returns (success,
or failure counts to inspect) or raises when neither count is positive. -/
def waitLoop (stream : Nat → PollStatus) (scanTimeout pollInterval : Nat) :
    Nat → Nat → Nat → WaitOutcome
  | 0, _, _ => .stillPolling
  | fuel + 1, i, elapsed =>
    if elapsed > scanTimeout then .timeout
    else
      match stream i with
      | .apiError => waitLoop stream scanTimeout pollInterval fuel (i + 1) (elapsed + pollInterval)
      | .running => waitLoop stream scanTimeout pollInterval fuel (i + 1) (elapsed + pollInterval)
      | .completed succeeded failed =>
        if succeeded > 0 then .success
        else if failed > 0 then .failedTasks
        else .unexpected

/-! ## `process_cloudrun_event` per-image loop (main.py, lines 74-137)

The external collaborators of the loop body are modelled as an oracle:
the recency check (total — `is_recently_scanned` swallows its own errors),
the scanner invocation and the result save (both can raise).  The ambient
clock (`datetime.utcnow().isoformat()`) and the audit-log labels are
parameters. -/

/-- The fields of `scan_image`'s return value that the event loop reads. -/
structure ScanData where
  scan_id : String
  status : String
  vulnerabilities : VulnSummary
  compliance : Json
deriving Repr

/-- The `result_record` dictionary built for one scanned image. -/
structure ResultRecord where
  timestamp : String
  container_type : String
  image : String
  project_id : String
  service_name : String
  location : String
  scan_id : String
  status : String
  vulnerabilities : VulnSummary
  compliance : Json
deriving Repr

/-- The dictionary passed to `storage.save_error` on a per-image failure. -/
structure ErrorRecord where
  timestamp : String
  image : String
  error : String
  service_name : String
  project_id : String
deriving Repr, DecidableEq

/-- `StorageHandler.save_error` writes the error record to the blob at this
name (best-effort: its own failures are logged and swallowed). -/
def save_error_blob_name (e : ErrorRecord) : String :=
  "errors/" ++ sanitize_name e.image ++ "/" ++ e.timestamp ++ ".json"

/-- Audit-event context labels and the ambient clock. -/
structure EventCtx where
  project_id : String
  service_name : String
  location : String
  event_id : String
  now : String
deriving Repr

/-- External collaborators of the per-image loop body. -/
structure EventOracle where
  recentlyScanned : String → Bool
  scanImage : String → String → String → Option String → List (String × String) → Except String ScanData
  saveScanResult : ResultRecord → Except String Unit

/-- `main.should_alert`: compare the critical/high counts against the
NOTIFY_SEVERITY_THRESHOLD setting (default HIGH). -/
def should_alert (threshold : String) (r : ResultRecord) : Bool :=
  let critical := r.vulnerabilities.CRITICAL
  let high := r.vulnerabilities.HIGH
  if threshold = "CRITICAL" then critical > 0
  else if threshold = "HIGH" then critical > 0 || high > 0
  else false

/-- Outcome of the loop body for one image: skipped by the recency cache,
scanned and saved (recording whether an alert fired), or failed — in which
case the `except` branch records an `ErrorRecord`. -/
inductive StepOutcome where
  | skipped : StepOutcome
  | saved : ResultRecord → Bool → StepOutcome
  | failed : String → StepOutcome
deriving Repr

/-- The `try` body of the per-image loop of `process_cloudrun_event`:
parse, recency check, scan with the custom tracking tags, build the result
record, save it, and evaluate the alert threshold.  Any raise becomes
`StepOutcome.failed`. -/
def processOneImage (o : EventOracle) (ctx : EventCtx) (threshold : String)
    (image : String) : StepOutcome :=
  match ImageParser.parse image with
  | .error e => .failed e
  | .ok info =>
    if o.recentlyScanned info.full_name then .skipped
    else
      let custom_tags :=
        [("container_type", "cloudrun"),
         ("gcp_project", ctx.project_id),
         ("service_name", ctx.service_name),
         ("location", ctx.location),
         ("event_id", ctx.event_id)]
      match o.scanImage info.registry info.repository info.tag info.digest custom_tags with
      | .error e => .failed e
      | .ok sd =>
        let record : ResultRecord :=
          { timestamp := ctx.now
            container_type := "cloudrun"
            image := image
            project_id := ctx.project_id
            service_name := ctx.service_name
            location := ctx.location
            scan_id := sd.scan_id
            status := sd.status
            vulnerabilities := sd.vulnerabilities
            compliance := sd.compliance }
        match o.saveScanResult record with
        | .error e => .failed e
        | .ok _ => .saved record (should_alert threshold record)

/-- The `ErrorRecord` built by the `except` branch for one failed image. -/
def mkErrorRecord (ctx : EventCtx) (image e : String) : ErrorRecord :=
  { timestamp := ctx.now
    image := image
    error := e
    service_name := ctx.service_name
    project_id := ctx.project_id }

/-- One iteration of the per-image loop: extend the accumulated `results`
on a successful scan-and-save, record an `ErrorRecord` on a failure, leave
both untouched on a cache skip. -/
def processStep (o : EventOracle) (ctx : EventCtx) (threshold : String)
    (acc : List ResultRecord × List ErrorRecord) (image : String) :
    List ResultRecord × List ErrorRecord :=
  match processOneImage o ctx threshold image with
  | .skipped => acc
  | .saved r _ => (acc.1 ++ [r], acc.2)
  | .failed e => (acc.1, acc.2 ++ [mkErrorRecord ctx image e])

/-- The per-image loop of `process_cloudrun_event`: accumulate result
records for scanned images and error records for failed ones; skipped
images contribute nothing. -/
def processImages (o : EventOracle) (ctx : EventCtx) (threshold : String)
    (images : List String) : List ResultRecord × List ErrorRecord :=
  images.foldl (processStep o ctx threshold) ([], [])


/-- The never-completing, transiently failing status stream used by the C2
witness: the first check raises an API error, every later one reports a
still-running execution. -/
def flakyStream : Nat → PollStatus
  | 0 => .apiError
  | _ + 1 => .running

/-! ## Helper lemmas -/

/-- `_normalize_severity` only ever returns one of the five buckets. -/
theorem normalize_severity_cases (s : String) :
    normalize_severity s = "CRITICAL" ∨ normalize_severity s = "HIGH" ∨
      normalize_severity s = "MEDIUM" ∨ normalize_severity s = "LOW" ∨
      normalize_severity s = "INFORMATIONAL" := by
  unfold normalize_severity
  cases h : severity_map.lookup (pyUpper s) with
  | none =>
    simp only [h]
    repeat' split
    all_goals simp
  | some v =>
    simp only [h]
    unfold severity_map at h
    simp only [List.lookup] at h
    repeat' split at h
    all_goals simp_all

/-- Each of the five buckets is a fixed point of `_normalize_severity`. -/
theorem normalize_severity_fixed :
    normalize_severity "CRITICAL" = "CRITICAL" ∧
    normalize_severity "HIGH" = "HIGH" ∧
    normalize_severity "MEDIUM" = "MEDIUM" ∧
    normalize_severity "LOW" = "LOW" ∧
    normalize_severity "INFORMATIONAL" = "INFORMATIONAL" := by decide

/-! ## Claim theorems -/

/-- Claim C8: `_normalize_severity` is total and idempotent — every input
maps to exactly one of the five buckets CRITICAL/HIGH/MEDIUM/LOW/
INFORMATIONAL, unrecognized input defaults to MEDIUM, and applying the
normalization twice gives the same result as applying it once. -/
theorem normalize_severity_total_idempotent (s : String) :
    (normalize_severity s = "CRITICAL" ∨ normalize_severity s = "HIGH" ∨
      normalize_severity s = "MEDIUM" ∨ normalize_severity s = "LOW" ∨
      normalize_severity s = "INFORMATIONAL") ∧
    normalize_severity (normalize_severity s) = normalize_severity s ∧
    (severityUnrecognized s = true → normalize_severity s = "MEDIUM") := by
  refine ⟨normalize_severity_cases s, ?_, ?_⟩
  · rcases normalize_severity_cases s with h | h | h | h | h <;> rw [h] <;> decide
  · intro hu
    unfold severityUnrecognized at hu
    simp only [Bool.and_eq_true, Bool.not_eq_true', Option.isNone_iff_eq_none] at hu
    obtain ⟨⟨⟨⟨⟨h0, h1⟩, h2⟩, h3⟩, h4⟩, h5⟩ := hu
    unfold normalize_severity
    simp [h0, h1, h2, h3, h4, h5]

/-- Witness for C8 at the unrecognized input `"bogus"`. -/
theorem normalize_severity_total_idempotent_witness :
    normalize_severity "bogus" = "MEDIUM" ∧
    normalize_severity (normalize_severity "bogus") = normalize_severity "bogus" :=
  ⟨(normalize_severity_total_idempotent "bogus").2.2 (by decide),
   (normalize_severity_total_idempotent "bogus").2.1⟩

/-- Output characters of `_sanitize_name`'s second pass are alphanumeric or
one of `-`, `_`, `.`. -/
theorem sanitizeKeep_kept (x : Char) :
    (sanitizeKeep x).isAlphanum = true ∨ sanitizeKeep x = '-' ∨
      sanitizeKeep x = '_' ∨ sanitizeKeep x = '.' := by
  unfold sanitizeKeep
  split
  · next h =>
    simp only [Bool.or_eq_true, beq_iff_eq] at h
    tauto
  · tauto

/-- A kept character is none of the three specially replaced ones. -/
theorem kept_not_special (y : Char)
    (h : y.isAlphanum = true ∨ y = '-' ∨ y = '_' ∨ y = '.') :
    y ≠ '/' ∧ y ≠ ':' ∧ y ≠ '@' := by
  rcases h with h | rfl | rfl | rfl
  · exact ⟨fun hy => by subst hy; exact absurd h (by decide),
           fun hy => by subst hy; exact absurd h (by decide),
           fun hy => by subst hy; exact absurd h (by decide)⟩
  · exact ⟨by decide, by decide, by decide⟩
  · exact ⟨by decide, by decide, by decide⟩
  · exact ⟨by decide, by decide, by decide⟩

/-- The first pass of `_sanitize_name` fixes every kept character. -/
theorem sanitizeSpecial_of_kept (y : Char)
    (h : y.isAlphanum = true ∨ y = '-' ∨ y = '_' ∨ y = '.') :
    sanitizeSpecial y = y := by
  obtain ⟨h1, h2, h3⟩ := kept_not_special y h
  unfold sanitizeSpecial
  simp [h1, h2, h3]

/-- The second pass of `_sanitize_name` fixes every kept character. -/
theorem sanitizeKeep_of_kept (y : Char)
    (h : y.isAlphanum = true ∨ y = '-' ∨ y = '_' ∨ y = '.') :
    sanitizeKeep y = y := by
  have hc : (y.isAlphanum || y == '-' || y == '_' || y == '.') = true := by
    rcases h with h | rfl | rfl | rfl
    · simp [h]
    all_goals decide
  unfold sanitizeKeep
  simp [hc]

/-- Claim C10: `_sanitize_name` is idempotent — sanitizing a sanitized name
returns it unchanged, because every output character is alphanumeric or one
of `-`, `_`, `.`, all of which the sanitizer preserves. -/
theorem sanitize_name_idempotent (name : String) :
    sanitize_name (sanitize_name name) = sanitize_name name ∧
    ∀ c ∈ (sanitize_name name).data,
      c.isAlphanum = true ∨ c = '-' ∨ c = '_' ∨ c = '.' := by
  constructor
  · unfold sanitize_name
    simp only [List.map_map]
    congr 1
    apply List.map_congr_left
    intro c _
    simp only [Function.comp_apply]
    have hk := sanitizeKeep_kept (sanitizeSpecial c)
    rw [sanitizeSpecial_of_kept _ hk, sanitizeKeep_of_kept _ hk]
  · intro c hc
    unfold sanitize_name at hc
    simp only [List.mem_map] at hc
    obtain ⟨x, _, rfl⟩ := hc
    exact sanitizeKeep_kept x

/-- Claim C1 (violation): the job name built for a 51-character repository
name has 65 characters — the sanitized base is truncated to 50 characters
and a hyphen plus a 14-digit timestamp are appended, exceeding the
63-character limit stated by the claim, by the spec, and by the source's
own comment. -/
theorem generate_job_name_exceeds_63 :
    (generate_job_name "gcr.io" (String.mk (List.replicate 51 'a')) "latest"
        "20250101120000").length = 65 ∧
      63 < (generate_job_name "gcr.io" (String.mk (List.replicate 51 'a')) "latest"
        "20250101120000").length := by decide

/-- Claim C4: `is_recently_scanned` returns true if and only if the metadata
store holds a record whose `sanitized_image_name` equals the sanitized input
name and whose timestamp is within the window (`now - hours`); when the
underlying query fails it returns false rather than raising. -/
theorem is_recently_scanned_iff (store : MetaStore) (image : String) (now hours : Nat) :
    (store.failure = none →
      (is_recently_scanned store image now hours = true ↔
        ∃ r ∈ store.records, r.sanitized_image_name = sanitize_name image ∧
          now - hours * 3600 ≤ r.timestamp)) ∧
    (∀ e, store.failure = some e → is_recently_scanned store image now hours = false) := by
  constructor
  · intro hf
    unfold is_recently_scanned runQuery
    simp only [hf]
    cases hfil : store.records.filter
        (fun r => r.sanitized_image_name == sanitize_name image &&
          decide (now - hours * 3600 ≤ r.timestamp)) with
    | nil =>
      simp only [List.take_nil, List.isEmpty_nil, Bool.not_true]
      constructor
      · intro h; exact absurd h (by decide)
      · rintro ⟨r, hr, hname, hts⟩
        have hmem : r ∈ store.records.filter
            (fun r => r.sanitized_image_name == sanitize_name image &&
              decide (now - hours * 3600 ≤ r.timestamp)) := by
          rw [List.mem_filter]
          exact ⟨hr, by simp [hname, hts]⟩
        rw [hfil] at hmem
        exact absurd hmem (List.not_mem_nil r)
    | cons r t =>
      refine ⟨fun _ => ?_, fun _ => rfl⟩
      have hmem : r ∈ store.records.filter
          (fun r => r.sanitized_image_name == sanitize_name image &&
            decide (now - hours * 3600 ≤ r.timestamp)) := by
        rw [hfil]; exact List.mem_cons_self r t
      rw [List.mem_filter] at hmem
      obtain ⟨hr, hp⟩ := hmem
      simp only [Bool.and_eq_true, beq_iff_eq, decide_eq_true_eq] at hp
      exact ⟨r, hr, hp.1, hp.2⟩
  · intro e hf
    unfold is_recently_scanned runQuery
    simp [hf]

/-- Witness for C4: a matching fresh record makes the check true; a failing
query makes it false. -/
theorem is_recently_scanned_iff_witness :
    is_recently_scanned ⟨[⟨"docker.io_library_nginx_latest", 5000⟩], none⟩
      "docker.io/library/nginx:latest" 90000 24 = true ∧
    is_recently_scanned ⟨[⟨"docker.io_library_nginx_latest", 5000⟩], some "ServiceUnavailable"⟩
      "docker.io/library/nginx:latest" 90000 24 = false := by
  constructor
  · exact (is_recently_scanned_iff ⟨[⟨"docker.io_library_nginx_latest", 5000⟩], none⟩
      "docker.io/library/nginx:latest" 90000 24).1 rfl |>.mpr
      ⟨⟨"docker.io_library_nginx_latest", 5000⟩, by decide, by decide, by decide⟩
  · exact (is_recently_scanned_iff ⟨[⟨"docker.io_library_nginx_latest", 5000⟩],
      some "ServiceUnavailable"⟩ "docker.io/library/nginx:latest" 90000 24).2
      "ServiceUnavailable" rfl

/-- Claim C5: the result interpreter never fails — whenever the decoder
rejects the raw output, `_parse_qscanner_output` returns (instead of
raising) an object whose `status` is PARSE_ERROR and which carries the raw
text and the decode error message. -/
theorem parse_qscanner_output_parse_error (decode : String → Except String Json)
    (output e : String) (h : decode output = .error e) :
    jsonIndex (parse_qscanner_output decode output) "status" = .ok (Json.str "PARSE_ERROR") ∧
    jsonIndex (parse_qscanner_output decode output) "raw_output" = .ok (Json.str output) ∧
    jsonIndex (parse_qscanner_output decode output) "error" = .ok (Json.str e) := by
  unfold parse_qscanner_output
  rw [h]
  exact ⟨rfl, rfl, rfl⟩

/-- Witness for C5 at a concrete failing decoder and raw output. -/
theorem parse_qscanner_output_parse_error_witness :
    jsonIndex (parse_qscanner_output (fun _ => .error "Expecting value") "plain logs")
      "status" = .ok (Json.str "PARSE_ERROR") ∧
    jsonIndex (parse_qscanner_output (fun _ => .error "Expecting value") "plain logs")
      "raw_output" = .ok (Json.str "plain logs") ∧
    jsonIndex (parse_qscanner_output (fun _ => .error "Expecting value") "plain logs")
      "error" = .ok (Json.str "Expecting value") :=
  parse_qscanner_output_parse_error (fun _ => .error "Expecting value")
    "plain logs" "Expecting value" rfl

/-- One unfolding step of the poll loop. -/
theorem waitLoop_succ (stream : Nat → PollStatus) (scanTimeout pollInterval fuel i elapsed : Nat) :
    waitLoop stream scanTimeout pollInterval (fuel + 1) i elapsed =
      if elapsed > scanTimeout then .timeout
      else
        match stream i with
        | .apiError => waitLoop stream scanTimeout pollInterval fuel (i + 1) (elapsed + pollInterval)
        | .running => waitLoop stream scanTimeout pollInterval fuel (i + 1) (elapsed + pollInterval)
        | .completed succeeded failed =>
          if succeeded > 0 then .success
          else if failed > 0 then .failedTasks
          else .unexpected := rfl

/-- The poll loop reaches `TimeoutError` whenever no status check ever
carries a completion marker and the fuel covers the timeout budget. -/
theorem waitLoop_timeout (stream : Nat → PollStatus) (scanTimeout pollInterval : Nat)
    (hnc : ∀ n, isCompleted (stream n) = false) :
    ∀ fuel i elapsed, scanTimeout < elapsed + fuel * pollInterval →
      waitLoop stream scanTimeout pollInterval (fuel + 1) i elapsed = .timeout := by
  intro fuel
  induction fuel with
  | zero =>
    intro i elapsed hlt
    rw [waitLoop_succ]
    simp only [Nat.zero_mul, Nat.add_zero] at hlt
    simp [hlt]
  | succ fuel ih =>
    intro i elapsed hlt
    rw [waitLoop_succ]
    by_cases he : elapsed > scanTimeout
    · simp [he]
    · rw [if_neg he]
      have hrec : scanTimeout < (elapsed + pollInterval) + fuel * pollInterval := by
        have : (fuel + 1) * pollInterval = fuel * pollInterval + pollInterval := by ring
        omega
      cases hs : stream i with
      | apiError => exact ih (i + 1) (elapsed + pollInterval) hrec
      | running => exact ih (i + 1) (elapsed + pollInterval) hrec
      | completed succeeded failed =>
        have := hnc i
        rw [hs] at this
        exact absurd this (by simp [isCompleted])

/-- Claim C2: with a positive poll interval, (a) if no status report ever
shows a completion marker, the loop raises `TimeoutError` once elapsed time
exceeds the configured scan timeout (fuel `scanTimeout / pollInterval + 2`
suffices for the timeout check to fire), and (b) a transient status-check
failure (`GoogleAPIError`) inside the window makes the loop sleep one
interval and poll again — the same loop continues instead of aborting. -/
theorem wait_for_execution_completion_timeout (stream : Nat → PollStatus)
    (scanTimeout pollInterval : Nat) (hpi : 0 < pollInterval) :
    ((∀ n, isCompleted (stream n) = false) →
      waitLoop stream scanTimeout pollInterval (scanTimeout / pollInterval + 2) 0 0
        = .timeout) ∧
    (∀ fuel i elapsed, stream i = .apiError → elapsed ≤ scanTimeout →
      waitLoop stream scanTimeout pollInterval (fuel + 1) i elapsed
        = waitLoop stream scanTimeout pollInterval fuel (i + 1) (elapsed + pollInterval)) := by
  constructor
  · intro hnc
    have hbound : scanTimeout < 0 + (scanTimeout / pollInterval + 1) * pollInterval := by
      have hdm := Nat.div_add_mod scanTimeout pollInterval
      have hmod := Nat.mod_lt scanTimeout hpi
      have hexp : (scanTimeout / pollInterval + 1) * pollInterval
          = pollInterval * (scanTimeout / pollInterval) + pollInterval := by ring
      omega
    exact waitLoop_timeout stream scanTimeout pollInterval hnc
      (scanTimeout / pollInterval + 1) 0 0 hbound
  · intro fuel i elapsed hs he
    rw [waitLoop_succ]
    have hng : ¬ elapsed > scanTimeout := by omega
    rw [if_neg hng, hs]

/-- Witness for C2 with the default 1800-second timeout and 10-second poll
interval. -/
theorem wait_for_execution_completion_timeout_witness :
    waitLoop flakyStream 1800 10 182 0 0 = .timeout ∧
    waitLoop flakyStream 1800 10 5 0 0 = waitLoop flakyStream 1800 10 4 1 10 := by
  have h := wait_for_execution_completion_timeout flakyStream 1800 10 (by decide)
  exact ⟨h.1 (fun n => by cases n <;> rfl), h.2 4 0 0 rfl (by decide)⟩

/-- Accumulator form of the per-image loop: every image contributes its own
step outcome, independent of the outcomes of the other images. -/
theorem processImages_go (o : EventOracle) (ctx : EventCtx) (threshold : String) :
    ∀ (images : List String) (rs : List ResultRecord) (es : List ErrorRecord),
      images.foldl (processStep o ctx threshold) (rs, es) =
        (rs ++ images.filterMap (fun image =>
            match processOneImage o ctx threshold image with
            | .saved r _ => some r
            | _ => none),
         es ++ images.filterMap (fun image =>
            match processOneImage o ctx threshold image with
            | .failed e => some (mkErrorRecord ctx image e)
            | _ => none)) := by
  intro images
  induction images with
  | nil => intro rs es; simp
  | cons img t ih =>
    intro rs es
    simp only [List.foldl_cons, List.filterMap_cons]
    cases h : processOneImage o ctx threshold img with
    | skipped =>
      simp only [processStep, h]
      rw [ih]
    | saved r a =>
      simp only [processStep, h]
      rw [ih]
      simp
    | failed e =>
      simp only [processStep, h]
      rw [ih]
      simp

/-- Claim C3: the per-image loop of `process_cloudrun_event` isolates
failures — its results are exactly the records of the images whose step
succeeded and its error records are exactly the `save_error` records of the
images whose step raised, each image contributing independently of every
other, so no single image's failure (parse, scan, or result-save error)
aborts the batch. -/
theorem process_event_isolates_failures (o : EventOracle) (ctx : EventCtx)
    (threshold : String) (images : List String) :
    processImages o ctx threshold images =
      (images.filterMap (fun image =>
          match processOneImage o ctx threshold image with
          | .saved r _ => some r
          | _ => none),
       images.filterMap (fun image =>
          match processOneImage o ctx threshold image with
          | .failed e => some (mkErrorRecord ctx image e)
          | _ => none)) := by
  unfold processImages
  rw [processImages_go]
  simp

/-- Unfolding `bumpSeverity` at each of the five buckets. -/
theorem bumpSeverity_buckets (s : VulnSummary) :
    bumpSeverity s "CRITICAL" = .ok { s with CRITICAL := s.CRITICAL + 1 } ∧
    bumpSeverity s "HIGH" = .ok { s with HIGH := s.HIGH + 1 } ∧
    bumpSeverity s "MEDIUM" = .ok { s with MEDIUM := s.MEDIUM + 1 } ∧
    bumpSeverity s "LOW" = .ok { s with LOW := s.LOW + 1 } ∧
    bumpSeverity s "INFORMATIONAL" = .ok { s with INFORMATIONAL := s.INFORMATIONAL + 1 } :=
  ⟨rfl, rfl, rfl, rfl, rfl⟩

/-- One finding increments exactly one severity bucket, the total, and
appends exactly one detail record. -/
theorem processVuln_inv (s s1 : VulnSummary) (v : Json)
    (h : processVuln s v = .ok s1)
    (hsum : s.CRITICAL + s.HIGH + s.MEDIUM + s.LOW + s.INFORMATIONAL = s.total)
    (hlen : s.details.length = s.total) :
    (s1.CRITICAL + s1.HIGH + s1.MEDIUM + s1.LOW + s1.INFORMATIONAL = s1.total) ∧
      s1.details.length = s1.total := by
  cases v with
  | obj fields =>
    simp only [processVuln] at h
    rcases normalize_severity_cases (jsonPyStr (pyGet fields "severity" (.str "UNKNOWN")))
      with hs | hs | hs | hs | hs <;>
      rw [hs] at h <;>
      [rw [(bumpSeverity_buckets s).1] at h;
       rw [(bumpSeverity_buckets s).2.1] at h;
       rw [(bumpSeverity_buckets s).2.2.1] at h;
       rw [(bumpSeverity_buckets s).2.2.2.1] at h;
       rw [(bumpSeverity_buckets s).2.2.2.2] at h] <;>
      simp only [Except.ok.injEq] at h <;>
      subst h <;>
      refine ⟨?_, ?_⟩ <;>
      simp [List.length_append] <;>
      omega
  | null => simp [processVuln] at h
  | bool b => simp [processVuln] at h
  | num n => simp [processVuln] at h
  | str t => simp [processVuln] at h
  | arr xs => simp [processVuln] at h

/-- The bucket/total/details invariant is preserved through the whole fold
over the findings list. -/
theorem foldlM_processVuln_inv (vulns : List Json) :
    ∀ (s0 s : VulnSummary),
      List.foldlM processVuln s0 vulns = .ok s →
      (s0.CRITICAL + s0.HIGH + s0.MEDIUM + s0.LOW + s0.INFORMATIONAL = s0.total) →
      s0.details.length = s0.total →
      (s.CRITICAL + s.HIGH + s.MEDIUM + s.LOW + s.INFORMATIONAL = s.total) ∧
        s.details.length = s.total := by
  induction vulns with
  | nil =>
    intro s0 s h h1 h2
    simp only [List.foldlM_nil, pure, Except.pure, Except.ok.injEq] at h
    subst h
    exact ⟨h1, h2⟩
  | cons v t ih =>
    intro s0 s h h1 h2
    rw [List.foldlM_cons] at h
    cases hb : processVuln s0 v with
    | error e => rw [hb] at h; simp [Bind.bind, Except.bind] at h
    | ok s1 =>
      rw [hb] at h
      simp only [Bind.bind, Except.bind] at h
      obtain ⟨hA, hB⟩ := processVuln_inv s0 s1 v hb h1 h2
      exact ih s1 s h hA hB

/-- Claim C9: for every decoded scan output from which
`_parse_vulnerabilities` returns a summary, the five severity buckets sum to
`total` and the `details` list has exactly `total` entries. -/
theorem parse_vulnerabilities_counts (j : Json) (s : VulnSummary)
    (h : parse_vulnerabilities j = .ok s) :
    s.CRITICAL + s.HIGH + s.MEDIUM + s.LOW + s.INFORMATIONAL = s.total ∧
      s.details.length = s.total := by
  unfold parse_vulnerabilities at h
  cases h1 : extractVulnList j with
  | error e => simp only [h1] at h; exact Except.noConfusion h
  | ok vj =>
    simp only [h1] at h
    cases h2 : jsonIter vj with
    | error e => simp only [h2] at h; exact Except.noConfusion h
    | ok vulns =>
      simp only [h2] at h
      exact foldlM_processVuln_inv vulns initSummary s h rfl rfl

/-- Witness for C9 on a concrete two-finding scan output. -/
theorem parse_vulnerabilities_counts_witness :
    ∃ s, parse_vulnerabilities (Json.obj [("vulnerabilities",
        Json.arr [Json.obj [("severity", Json.num 5)],
                  Json.obj [("severity", Json.str "high")]])]) = .ok s ∧
      (s.CRITICAL + s.HIGH + s.MEDIUM + s.LOW + s.INFORMATIONAL = s.total ∧
        s.details.length = s.total) := by
  refine ⟨⟨1, 1, 0, 0, 0, 2,
    [mkDetail [("severity", Json.num 5)] "CRITICAL",
     mkDetail [("severity", Json.str "high")] "HIGH"]⟩, rfl, ?_⟩
  exact parse_vulnerabilities_counts
    (Json.obj [("vulnerabilities",
      Json.arr [Json.obj [("severity", Json.num 5)],
                Json.obj [("severity", Json.str "high")]])])
    ⟨1, 1, 0, 0, 0, 2,
      [mkDetail [("severity", Json.num 5)] "CRITICAL",
       mkDetail [("severity", Json.str "high")] "HIGH"]⟩ rfl

/-- Claim C6: whenever the digest-stripping step of `ImageParser.parse`
succeeds, the parsed tag is `latest` when the remaining string has no colon,
and the portion after the last colon when it has one. -/
theorem image_parser_tag (s base : String) (dg : Option String)
    (h : splitDigest s = .ok (base, dg)) :
    ∃ info, ImageParser.parse s = .ok info ∧
      info.tag = (if base.data.contains ':' then String.mk (breakLast ':' base.data).2
                  else "latest") := by
  unfold ImageParser.parse
  simp only [h]
  refine ⟨_, rfl, ?_⟩
  cases hc : base.data.contains ':' <;> simp [hc]

/-- Witness for C6: a tagless name gets tag `latest`; an explicit tag is the
text after the last colon. -/
theorem image_parser_tag_witness :
    (∃ info, ImageParser.parse "nginx" = .ok info ∧ info.tag = "latest") ∧
    (∃ info, ImageParser.parse "gcr.io/project/app:v1" = .ok info ∧ info.tag = "v1") := by
  constructor
  · have h := image_parser_tag "nginx" "nginx" none rfl
    simpa using h
  · have h := image_parser_tag "gcr.io/project/app:v1" "gcr.io/project/app:v1" none rfl
    simpa using h

/-- Claim C7 (counterexample): an image string containing the `@sha256:`
marker twice makes `ImageParser.parse` raise a `ValueError` (two-element
unpacking of a three-part split), so no digest is preserved and no
`full_name` is produced at all for this input. -/
theorem image_parser_double_digest_raises :
    ImageParser.parse "nginx@sha256:aa@sha256:bb"
      = .error "ValueError: too many values to unpack (expected 2)" := rfl

/-- Claim C7 (amended): for every image string containing exactly one
occurrence of `@sha256:`, the parse succeeds, the digest is preserved
verbatim with its `sha256:` prefix (everything after the marker), and
`full_name` uses the `@digest` form — never the `:tag` form — even when a
tag segment is also present in the input. -/
theorem image_parser_digest_form (s : String) (a b : List Char)
    (h1 : splitOnceAux "@sha256:".data s.data = some (a, b))
    (h2 : containsSub b "@sha256:".data = false) :
    ∃ info, ImageParser.parse s = .ok info ∧
      info.digest = some ("sha256:" ++ String.mk b) ∧
      info.full_name
        = info.registry ++ "/" ++ info.repository ++ "@" ++ ("sha256:" ++ String.mk b) := by
  have hd : splitDigest s = .ok (String.mk a, some ("sha256:" ++ String.mk b)) := by
    unfold splitDigest
    simp only [h1, h2]
    simp
  unfold ImageParser.parse
  simp only [hd]
  exact ⟨_, rfl, rfl, rfl⟩

/-- Witness for C7 (amended) on an input carrying both a tag and a digest. -/
theorem image_parser_digest_form_witness :
    ∃ info, ImageParser.parse "nginx:1.0@sha256:abc" = .ok info ∧
      info.digest = some ("sha256:" ++ String.mk "abc".data) ∧
      info.full_name
        = info.registry ++ "/" ++ info.repository ++ "@" ++ ("sha256:" ++ String.mk "abc".data) :=
  image_parser_digest_form "nginx:1.0@sha256:abc" "nginx:1.0".data "abc".data
    (by decide) (by decide)
